import Mathlib

/-!
Shallow embedding of the recommendation engine of the bitcoin-trading-advisor
repository (src/src/engine/recommendation.py), with theorems settling the
specification claims about it.  Python floats are modelled as rationals;
Python raising an exception is modelled as Except.error; dict fields that the
code reads with .get and a default become Option fields read with getD.
Rationale strings keep their constant text; the numeric interpolations the
f-strings embed in them (e.g. the RSI value) are not modelled.
-/

namespace RecEngine

/-- Python round-half-to-even of a rational to an integer, as in round(x). -/
def roundHalfEven (q : ℚ) : ℤ :=
  let f : ℤ := ⌊q⌋
  let r : ℚ := q - (f : ℚ)
  if r < 1/2 then f
  else if 1/2 < r then f + 1
  else if f % 2 = 0 then f else f + 1

/-- Python round(x, d) on rationals: round-half-to-even at d decimal places. -/
def pyRound (q : ℚ) (d : ℕ) : ℚ :=
  (roundHalfEven (q * (10 : ℚ) ^ d) : ℚ) / (10 : ℚ) ^ d

/-- Does pat occur at the start of s? (helper for the substring test). -/
def startsWithChars : List Char → List Char → Bool
  | [], _ => true
  | _ :: _, [] => false
  | a :: as, b :: bs => a = b && startsWithChars as bs

/-- Does pat occur somewhere in s? (helper for the substring test). -/
def hasSubChars (pat : List Char) : List Char → Bool
  | [] => pat.isEmpty
  | c :: rest => startsWithChars pat (c :: rest) || hasSubChars pat rest

/-- Substring test, as the Python expression (pat in s). -/
def strContains (s pat : String) : Bool :=
  hasSubChars pat.data s.data

/-- The engine object: the three legacy constructor weights
(RecommendationEngine.__init__ stores them unchanged). -/
structure Engine where
  reddit_weight : ℚ
  news_weight : ℚ
  technical_weight : ℚ
deriving DecidableEq

/-- RecommendationEngine.__init__: validates the weights and raises ValueError
when a weight is outside [0, 1] or the sum is not 1.0 within 0.01. -/
def mkEngine (reddit_weight news_weight technical_weight : ℚ) :
    Except String Engine :=
  if ¬ (0 ≤ reddit_weight ∧ reddit_weight ≤ 1 ∧ 0 ≤ news_weight ∧
        news_weight ≤ 1 ∧ 0 ≤ technical_weight ∧ technical_weight ≤ 1) then
    Except.error ("Weights must be between 0 and 1")
  else if |reddit_weight + news_weight + technical_weight - 1| > 1/100 then
    Except.error ("Weights must sum to 1.0")
  else
    Except.ok ⟨reddit_weight, news_weight, technical_weight⟩

/-- RecommendationEngine._analyze_rsi: score and signal label. -/
def analyze_rsi (rsi_value : ℚ) : ℚ × String :=
  if rsi_value ≥ 70 then
    let severity := min ((rsi_value - 70) / 30) 1
    (-(1/2) - severity * (1/2), "Overbought")
  else if rsi_value ≤ 30 then
    let severity := min ((30 - rsi_value) / 30) 1
    (1/2 + severity * (1/2), "Oversold")
  else if 40 ≤ rsi_value ∧ rsi_value ≤ 60 then
    (0, "Neutral")
  else if rsi_value > 60 then
    (-(3/10), "Moderate strength")
  else
    (3/10, "Moderate weakness")

/-- RecommendationEngine._analyze_moving_averages: additive score from trend,
crossovers and the 21-week EMA band, clamped to [-1, 1].  The Python code
reads ema_147 from a dict and tests its truthiness, so a missing value is an
Option.none and a present value of 0 is falsy. -/
def analyze_moving_averages (current_price : ℚ) (ma_trend : String)
    (golden_cross death_cross : Bool) (ema_147 : Option ℚ) : ℚ × String :=
  let s1 : ℚ :=
    if ma_trend = "strong_bullish" then 8/10
    else if ma_trend = "bullish" then 1/2
    else if ma_trend = "bearish" then -(1/2)
    else if ma_trend = "strong_bearish" then -(8/10)
    else 0
  let l1 : List String :=
    if ma_trend = "strong_bullish" then ["Strong uptrend"]
    else if ma_trend = "bullish" then ["Uptrend"]
    else if ma_trend = "bearish" then ["Downtrend"]
    else if ma_trend = "strong_bearish" then ["Strong downtrend"]
    else []
  let s2 : ℚ := if golden_cross then s1 + 3/10 else s1
  let l2 : List String := if golden_cross then l1 ++ ["Golden Cross"] else l1
  let s3 : ℚ := if death_cross then s2 - 3/10 else s2
  let l3 : List String := if death_cross then l2 ++ ["Death Cross"] else l2
  let sl4 : ℚ × List String :=
    match ema_147 with
    | none => (s3, l3)
    | some e =>
        if e = 0 then (s3, l3)
        else if current_price > e * (105/100) then
          (s3 + 2/10, l3 ++ ["Above 21W EMA"])
        else if current_price < e * (95/100) then
          (s3 - 2/10, l3 ++ ["Below 21W EMA"])
        else (s3, l3)
  let score := max (-1) (min 1 sl4.1)
  let signal_text :=
    if sl4.2.isEmpty then "Neutral MA structure"
    else String.intercalate (", ") sl4.2
  (score, signal_text)

/-- RecommendationEngine._analyze_power_law: score from corridor status and
percentage deviation from fair value. -/
def analyze_power_law (status : String) (current_price fair_value : ℚ) :
    ℚ × String :=
  let deviation := ((current_price - fair_value) / fair_value) * 100
  if status = "Deep Value" then (1, "Deep Value")
  else if status = "Bubble Risk" then (-1, "Bubble Risk")
  else if deviation < -20 then (6/10, "Undervalued")
  else if deviation < -10 then (3/10, "Below fair value")
  else if deviation > 50 then (-(7/10), "Overvalued")
  else if deviation > 20 then (-(4/10), "Above fair value")
  else (1/10, "Fair Value Zone")

/-- RecommendationEngine._analyze_macd: score from the qualitative signal and
the histogram magnitude.  A histogram of 0 is falsy in Python, so the
strength then defaults to 0.5. -/
def analyze_macd (signal : String) (histogram : ℚ) : ℚ × String :=
  if signal = "bullish" then
    let strength := if histogram ≠ 0 then min (|histogram| / 1000) 1 else 1/2
    (3/10 + strength * (4/10), "Bullish momentum")
  else if signal = "bearish" then
    let strength := if histogram ≠ 0 then min (|histogram| / 1000) 1 else 1/2
    (-(3/10) - strength * (4/10), "Bearish momentum")
  else
    (0, "Neutral momentum")

/-- RecommendationEngine._analyze_sentiment: contrarian treatment of extreme
scores, otherwise graded by the average of the two sources. -/
def analyze_sentiment (reddit_score news_score : ℚ) : ℚ × String :=
  let avg_sentiment := (reddit_score + news_score) / 2
  if reddit_score > 85/100 ∨ news_score > 85/100 then
    (-(6/10), "Extreme euphoria (contrarian bearish)")
  else if reddit_score < 15/100 ∨ news_score < 15/100 then
    (6/10, "Extreme fear (contrarian bullish)")
  else if avg_sentiment > 6/10 then (4/10, "Positive sentiment")
  else if avg_sentiment > 3/10 then (2/10, "Moderately positive")
  else if avg_sentiment < -(3/10) then (-(4/10), "Negative sentiment")
  else if avg_sentiment < -(1/10) then (-(2/10), "Moderately negative")
  else (0, "Neutral sentiment")

/-- RecommendationEngine._recommendation_to_score. -/
def recommendation_to_score (recommendation : String) : ℚ :=
  let l := recommendation.toLower
  if l = "buy" then 1
  else if l = "hold" then 0
  else if l = "sell" then -1
  else 0

/-- RecommendationEngine._score_to_recommendation: thresholds on the
composite score giving the recommendation string and its confidence. -/
def score_to_recommendation (score : ℚ) : String × ℚ :=
  let abs_score := |score|
  if score ≥ 7/10 then ("strong_buy", min abs_score 1)
  else if score ≥ 3/10 then ("buy", abs_score)
  else if score ≤ -(7/10) then ("strong_sell", min abs_score 1)
  else if score ≤ -(3/10) then ("sell", abs_score)
  else ("hold", 1 - abs_score)

/-- A target-price set: the directional dict with entry/target_1/target_2/
stop_loss, or the neutral dict with entry/support/resistance. -/
inductive Targets where
  | directional (entry target_1 target_2 stop_loss : ℚ)
  | neutral (entry support resistance : ℚ)
deriving DecidableEq

/-- RecommendationEngine._calculate_targets: price levels from current price,
the recommendation string (tested by substring, as in Python) and the
confidence; every level is rounded to 2 decimals. -/
def calculate_targets (current_price : ℚ) (recommendation : String)
    (confidence : ℚ) : Targets :=
  if strContains recommendation ("buy") then
    Targets.directional (pyRound current_price 2)
      (pyRound (current_price * (1 + 5/100 * confidence)) 2)
      (pyRound (current_price * (1 + 10/100 * confidence)) 2)
      (pyRound (current_price * (1 - 3/100 * confidence)) 2)
  else if strContains recommendation ("sell") then
    Targets.directional (pyRound current_price 2)
      (pyRound (current_price * (1 - 5/100 * confidence)) 2)
      (pyRound (current_price * (1 - 10/100 * confidence)) 2)
      (pyRound (current_price * (1 + 3/100 * confidence)) 2)
  else
    Targets.neutral (pyRound current_price 2)
      (pyRound (current_price * (95/100)) 2)
      (pyRound (current_price * (105/100)) 2)

/-- The power_law_analysis input dict: the engine indexes status and
fair_value directly and copies support/resistance into the result. -/
structure PowerLawAnalysis where
  status : String
  fair_value : ℚ
  support_value : ℚ
  resistance_value : ℚ
deriving DecidableEq

/-- The technical_analysis input dict, with Option for every field the code
reads through .get with a default (missing key), and mandatory fields for
the keys it indexes directly. -/
structure TechnicalAnalysis where
  rsi_value : Option ℚ
  macd_signal : Option String
  macd_histogram : Option ℚ
  ma_trend : Option String
  golden_cross : Bool
  death_cross : Bool
  ema_147 : Option ℚ
  overall_recommendation : String
  overall_confidence : ℚ
deriving DecidableEq

/-- A sentiment_analysis input dict (news or Reddit). -/
structure SentimentAnalysis where
  average_compound : ℚ
  overall_sentiment : String
  recommendation : String
  confidence : ℚ
  article_count : ℕ
deriving DecidableEq

/-- The five factor scores of the result (each rounded to 3 decimals). -/
structure FactorScores where
  rsi : ℚ
  moving_averages : ℚ
  power_law : ℚ
  macd : ℚ
  sentiment : ℚ
deriving DecidableEq

/-- The five fixed factor weights of the result. -/
structure FactorWeights where
  rsi : ℚ
  moving_averages : ℚ
  power_law : ℚ
  macd : ℚ
  sentiment : ℚ
deriving DecidableEq

/-- The power_law_data block of the result. -/
structure PowerLawData where
  fair_value : ℚ
  support_value : ℚ
  resistance_value : ℚ
  status : String
deriving DecidableEq

/-- One entry of the legacy signals block. -/
structure SignalEntry where
  recommendation : String
  confidence : ℚ
  score : ℚ
  weight : ℚ
deriving DecidableEq

/-- The combined_sentiment details of the legacy signals block. -/
structure CombinedSentiment where
  overall_sentiment : String
  compound : ℚ
  average_compound : ℚ
  article_count : ℕ
  recommendation : String
  confidence : ℚ
deriving DecidableEq

/-- The legacy signals block of the result (weight-dependent display data). -/
structure Signals where
  technical : SignalEntry
  sentiment : SignalEntry
  sentiment_details : CombinedSentiment
  reddit_recommendation : String
  reddit_confidence : ℚ
  news_recommendation : String
  news_confidence : ℚ
deriving DecidableEq

/-- The result dict of generate_recommendation (the impure timestamp and the
prose reasoning/divergence strings are not modelled). -/
structure Result where
  recommendation : String
  confidence : ℚ
  composite_score : ℚ
  combined_score : ℚ
  current_price : ℚ
  targets : Targets
  factor_scores : FactorScores
  factor_weights : FactorWeights
  power_law_data : PowerLawData
  signals : Signals
deriving DecidableEq

/-- The body of RecommendationEngine.generate_recommendation on its
non-raising paths: extracts the adapter fields (with the .get defaults of the
Python code), scores the five factors, blends them with the fixed weights,
maps the composite to a recommendation and targets, and assembles the result
dict including the legacy weight-dependent signals block. -/
def generate_recommendation_core (e : Engine)
    (power_law_analysis : PowerLawAnalysis)
    (technical_analysis : TechnicalAnalysis)
    (news_sentiment_analysis reddit_sentiment_analysis : SentimentAnalysis)
    (current_price : ℚ) : Result :=
  let rsi_value := technical_analysis.rsi_value.getD 50
  let macd_signal := technical_analysis.macd_signal.getD ("neutral")
  let macd_histogram := technical_analysis.macd_histogram.getD 0
  let ma_trend := technical_analysis.ma_trend.getD ("neutral")
  let reddit_score_raw := reddit_sentiment_analysis.average_compound
  let news_score_raw := news_sentiment_analysis.average_compound
  let rsiR := analyze_rsi rsi_value
    let maR := analyze_moving_averages current_price ma_trend
      technical_analysis.golden_cross technical_analysis.death_cross
      technical_analysis.ema_147
    let plR := analyze_power_law power_law_analysis.status current_price
      power_law_analysis.fair_value
    let macdR := analyze_macd macd_signal macd_histogram
    let sentimentR := analyze_sentiment reddit_score_raw news_score_raw
    let composite_score :=
      rsiR.1 * (20/100) + maR.1 * (25/100) + plR.1 * (25/100) +
      macdR.1 * (15/100) + sentimentR.1 * (15/100)
    let recommendationC := score_to_recommendation composite_score
    let technical_rec := technical_analysis.overall_recommendation
    let technical_conf := technical_analysis.overall_confidence
    let news_rec := news_sentiment_analysis.recommendation
    let news_conf := news_sentiment_analysis.confidence
    let reddit_rec := reddit_sentiment_analysis.recommendation
    let reddit_conf := reddit_sentiment_analysis.confidence
    let tech_score := recommendation_to_score technical_rec * technical_conf
    let news_score := recommendation_to_score news_rec * news_conf
    let reddit_score := recommendation_to_score reddit_rec * reddit_conf
    let targets := calculate_targets current_price recommendationC.1
      recommendationC.2
    let combined_compound :=
      (reddit_sentiment_analysis.average_compound * e.reddit_weight +
       news_sentiment_analysis.average_compound * e.news_weight) /
      (e.reddit_weight + e.news_weight)
    let combined_sentiment : CombinedSentiment :=
      { overall_sentiment := reddit_sentiment_analysis.overall_sentiment
        compound := combined_compound
        average_compound := combined_compound
        article_count := reddit_sentiment_analysis.article_count +
          news_sentiment_analysis.article_count
        recommendation := if reddit_conf > news_conf then reddit_rec else news_rec
        confidence := max reddit_conf news_conf };
      { recommendation := recommendationC.1
        confidence := pyRound recommendationC.2 2
        composite_score := pyRound composite_score 3
        combined_score := pyRound composite_score 3
        current_price := current_price
        targets := targets
        factor_scores :=
          { rsi := pyRound rsiR.1 3
            moving_averages := pyRound maR.1 3
            power_law := pyRound plR.1 3
            macd := pyRound macdR.1 3
            sentiment := pyRound sentimentR.1 3 }
        factor_weights :=
          { rsi := 20/100
            moving_averages := 25/100
            power_law := 25/100
            macd := 15/100
            sentiment := 15/100 }
        power_law_data :=
          { fair_value := power_law_analysis.fair_value
            support_value := power_law_analysis.support_value
            resistance_value := power_law_analysis.resistance_value
            status := power_law_analysis.status }
        signals :=
          { technical :=
              { recommendation := technical_rec
                confidence := technical_conf
                score := pyRound tech_score 3
                weight := e.technical_weight }
            sentiment :=
              { recommendation := combined_sentiment.recommendation
                confidence := combined_sentiment.confidence
                score := pyRound ((reddit_score * e.reddit_weight +
                  news_score * e.news_weight) /
                  (e.reddit_weight + e.news_weight)) 3
                weight := e.reddit_weight + e.news_weight }
            sentiment_details := combined_sentiment
            reddit_recommendation := reddit_rec
            reddit_confidence := reddit_conf
            news_recommendation := news_rec
            news_confidence := news_conf } }

/-- RecommendationEngine.generate_recommendation.  The two division-by-zero
sites of the Python code (the deviation in _analyze_power_law when fair_value
is 0, and the reddit/news combination when those two weights sum to 0) raise
ZeroDivisionError; every other path returns the result dict built by
generate_recommendation_core. -/
def generate_recommendation (e : Engine)
    (power_law_analysis : PowerLawAnalysis)
    (technical_analysis : TechnicalAnalysis)
    (news_sentiment_analysis reddit_sentiment_analysis : SentimentAnalysis)
    (current_price : ℚ) : Except String Result :=
  if power_law_analysis.fair_value = 0 then
    Except.error ("ZeroDivisionError")
  else if e.reddit_weight + e.news_weight = 0 then
    Except.error ("ZeroDivisionError")
  else
    Except.ok (generate_recommendation_core e power_law_analysis
      technical_analysis news_sentiment_analysis reddit_sentiment_analysis
      current_price)

/-- The composite score expression of generate_recommendation_core: the
weighted sum of the five factor scores with the fixed holistic weights
0.20 / 0.25 / 0.25 / 0.15 / 0.15. -/
def composite_of (ta : TechnicalAnalysis) (pl : PowerLawAnalysis)
    (news reddit : SentimentAnalysis) (p : ℚ) : ℚ :=
  (analyze_rsi (ta.rsi_value.getD 50)).1 * (20/100) +
  (analyze_moving_averages p (ta.ma_trend.getD ("neutral")) ta.golden_cross
    ta.death_cross ta.ema_147).1 * (25/100) +
  (analyze_power_law pl.status p pl.fair_value).1 * (25/100) +
  (analyze_macd (ta.macd_signal.getD ("neutral"))
    (ta.macd_histogram.getD 0)).1 * (15/100) +
  (analyze_sentiment reddit.average_compound news.average_compound).1 * (15/100)

/-- The constructor-weight validity condition of RecommendationEngine
.__init__: each weight in [0, 1] and the sum equal to 1 within 0.01. -/
def validWeights (e : Engine) : Prop :=
  0 ≤ e.reddit_weight ∧ e.reddit_weight ≤ 1 ∧
  0 ≤ e.news_weight ∧ e.news_weight ≤ 1 ∧
  0 ≤ e.technical_weight ∧ e.technical_weight ≤ 1 ∧
  |e.reddit_weight + e.news_weight + e.technical_weight - 1| ≤ 1/100

/-! ### Concrete scenario inputs used by witnesses and counterexamples -/

/-- An engine with the default constructor weights 0.4 / 0.3 / 0.3. -/
def eW : Engine := ⟨4/10, 3/10, 3/10⟩

/-- A second valid engine with different legacy weights 0.2 / 0.2 / 0.6. -/
def eW2 : Engine := ⟨1/5, 1/5, 3/5⟩

/-- A deep-value power-law record with fair value 100. -/
def plW : PowerLawAnalysis := ⟨"Deep Value", 100, 80, 120⟩

/-- A bubble-risk power-law record with fair value 100. -/
def plB : PowerLawAnalysis := ⟨"Bubble Risk", 100, 80, 120⟩

/-- A fully neutral technical record with RSI 50. -/
def taW : TechnicalAnalysis :=
  ⟨some 50, some ("neutral"), some 0, some ("neutral"), false, false, none,
   "hold", 1/2⟩

/-- A technical record with heavily overbought RSI 95. -/
def taHot : TechnicalAnalysis :=
  ⟨some 95, some ("neutral"), some 0, some ("neutral"), false, false, none,
   "buy", 65/100⟩

/-- A technical record whose rsi dict lacks the value field. -/
def taNoRsi : TechnicalAnalysis :=
  ⟨none, some ("neutral"), some 0, some ("neutral"), false, false, none,
   "hold", 1/2⟩

/-- A mildly positive news sentiment record (compound 0.5). -/
def newsW : SentimentAnalysis := ⟨1/2, "positive", "hold", 1/2, 3⟩

/-- A mildly positive Reddit sentiment record (compound 0.5). -/
def redditW : SentimentAnalysis := ⟨1/2, "positive", "buy", 7/10, 5⟩

/-- A euphoric Reddit sentiment record (raw compound 0.9 > 0.85). -/
def redditEuphoric : SentimentAnalysis := ⟨9/10, "positive", "buy", 7/10, 5⟩

/-- A fearful Reddit sentiment record (raw compound 0.1 < 0.15). -/
def redditFear : SentimentAnalysis := ⟨1/10, "negative", "sell", 7/10, 5⟩

/-- The engine result on the neutral scenario. -/
def rW : Result := generate_recommendation_core eW plW taW newsW redditW 100

/-- The engine result on the neutral scenario under the second engine. -/
def rW2 : Result := generate_recommendation_core eW2 plW taW newsW redditW 100

/-- The engine result on the euphoric-sentiment scenario. -/
def rB : Result :=
  generate_recommendation_core eW plB taHot newsW redditEuphoric 100

/-- The engine result on the fearful-sentiment scenario. -/
def rF : Result :=
  generate_recommendation_core eW plW taW newsW redditFear 100

/-! ### Rounding lemmas -/

theorem roundHalfEven_le {q : ℚ} {n : ℤ} (h : q ≤ (n : ℚ)) :
    roundHalfEven q ≤ n := by
  have hf : ⌊q⌋ ≤ n := by
    have := Int.floor_le_floor h
    simpa using this
  have hfq : (⌊q⌋ : ℚ) ≤ q := Int.floor_le q
  simp only [roundHalfEven]
  split_ifs with h1 h2 h3
  · exact hf
  · have : (⌊q⌋ : ℚ) < (n : ℚ) := by linarith
    have : ⌊q⌋ < n := by exact_mod_cast this
    omega
  · exact hf
  · have hr : q - (⌊q⌋ : ℚ) = 1/2 := le_antisymm (not_lt.mp h2) (not_lt.mp h1)
    have : (⌊q⌋ : ℚ) < (n : ℚ) := by linarith
    have : ⌊q⌋ < n := by exact_mod_cast this
    omega

theorem le_roundHalfEven {q : ℚ} {n : ℤ} (h : (n : ℚ) ≤ q) :
    n ≤ roundHalfEven q := by
  have hf : n ≤ ⌊q⌋ := Int.le_floor.mpr h
  simp only [roundHalfEven]
  split_ifs <;> omega

theorem pyRound_le_one {q : ℚ} (d : ℕ) (h : q ≤ 1) : pyRound q d ≤ 1 := by
  have hpow : (0 : ℚ) < (10 : ℚ) ^ d := by positivity
  have hmul : q * (10 : ℚ) ^ d ≤ (((10 : ℤ) ^ d : ℤ) : ℚ) := by
    push_cast
    calc q * (10 : ℚ) ^ d ≤ 1 * (10 : ℚ) ^ d := by
          exact mul_le_mul_of_nonneg_right h (le_of_lt hpow)
      _ = (10 : ℚ) ^ d := one_mul _
  have hint : roundHalfEven (q * (10 : ℚ) ^ d) ≤ (10 : ℤ) ^ d :=
    roundHalfEven_le hmul
  have : ((roundHalfEven (q * (10 : ℚ) ^ d) : ℤ) : ℚ) ≤ (10 : ℚ) ^ d := by
    exact_mod_cast hint
  unfold pyRound
  rw [div_le_one hpow]
  exact this

theorem neg_one_le_pyRound {q : ℚ} (d : ℕ) (h : -1 ≤ q) : -1 ≤ pyRound q d := by
  have hpow : (0 : ℚ) < (10 : ℚ) ^ d := by positivity
  have hmul : ((-(10 : ℤ) ^ d : ℤ) : ℚ) ≤ q * (10 : ℚ) ^ d := by
    push_cast
    calc (-(10 : ℚ) ^ d) = (-1) * (10 : ℚ) ^ d := by ring
      _ ≤ q * (10 : ℚ) ^ d := mul_le_mul_of_nonneg_right h (le_of_lt hpow)
  have hint : -(10 : ℤ) ^ d ≤ roundHalfEven (q * (10 : ℚ) ^ d) :=
    le_roundHalfEven hmul
  have hcast : (-(10 : ℚ) ^ d) ≤ ((roundHalfEven (q * (10 : ℚ) ^ d) : ℤ) : ℚ) := by
    exact_mod_cast hint
  unfold pyRound
  rw [le_div_iff₀ hpow]
  linarith

/-! ### Factor-score bounds -/

theorem analyze_rsi_mem (v : ℚ) :
    -1 ≤ (analyze_rsi v).1 ∧ (analyze_rsi v).1 ≤ 1 := by
  simp only [analyze_rsi]
  split_ifs with h1 h2 h3 <;> dsimp only
  · have hm0 : 0 ≤ min ((v - 70) / 30) 1 := le_min (by linarith) (by norm_num)
    have hm1 : min ((v - 70) / 30) 1 ≤ 1 := min_le_right _ _
    constructor <;> linarith
  · have hm0 : 0 ≤ min ((30 - v) / 30) 1 := le_min (by linarith) (by norm_num)
    have hm1 : min ((30 - v) / 30) 1 ≤ 1 := min_le_right _ _
    constructor <;> linarith
  · constructor <;> norm_num
  · constructor <;> norm_num
  · constructor <;> norm_num

theorem analyze_moving_averages_mem (p : ℚ) (t : String) (g d : Bool)
    (ema : Option ℚ) :
    -1 ≤ (analyze_moving_averages p t g d ema).1 ∧
      (analyze_moving_averages p t g d ema).1 ≤ 1 := by
  simp only [analyze_moving_averages]
  exact ⟨le_max_left _ _, max_le (by norm_num) (min_le_left _ _)⟩

theorem analyze_power_law_mem (s : String) (p f : ℚ) :
    -1 ≤ (analyze_power_law s p f).1 ∧ (analyze_power_law s p f).1 ≤ 1 := by
  simp only [analyze_power_law]
  split_ifs <;> norm_num

theorem analyze_macd_mem (s : String) (h : ℚ) :
    -1 ≤ (analyze_macd s h).1 ∧ (analyze_macd s h).1 ≤ 1 := by
  simp only [analyze_macd]
  split_ifs with h1 h2 h3 h4 <;> dsimp only
  · have hm0 : 0 ≤ min (|h| / 1000) 1 := le_min (by positivity) (by norm_num)
    have hm1 : min (|h| / 1000) 1 ≤ 1 := min_le_right _ _
    constructor <;> linarith
  · constructor <;> norm_num
  · have hm0 : 0 ≤ min (|h| / 1000) 1 := le_min (by positivity) (by norm_num)
    have hm1 : min (|h| / 1000) 1 ≤ 1 := min_le_right _ _
    constructor <;> linarith
  · constructor <;> norm_num
  · constructor <;> norm_num

theorem analyze_sentiment_mem (r n : ℚ) :
    -1 ≤ (analyze_sentiment r n).1 ∧ (analyze_sentiment r n).1 ≤ 1 := by
  simp only [analyze_sentiment]
  split_ifs <;> norm_num

/-! ### Zone-evaluation lemmas -/

theorem analyze_rsi_overbought {v : ℚ} (h : 70 ≤ v) :
    analyze_rsi v = (-(1/2) - min ((v - 70) / 30) 1 * (1/2), "Overbought") := by
  simp only [analyze_rsi]
  rw [if_pos h]

theorem analyze_rsi_oversold {v : ℚ} (h : v ≤ 30) :
    analyze_rsi v = (1/2 + min ((30 - v) / 30) 1 * (1/2), "Oversold") := by
  simp only [analyze_rsi]
  rw [if_neg (by intro hc; linarith), if_pos h]

theorem analyze_rsi_neutral {v : ℚ} (h1 : 40 ≤ v) (h2 : v ≤ 60) :
    analyze_rsi v = (0, "Neutral") := by
  simp only [analyze_rsi]
  rw [if_neg (by intro hc; linarith), if_neg (by intro hc; linarith),
    if_pos ⟨h1, h2⟩]

theorem analyze_rsi_mod_strength {v : ℚ} (h1 : 60 < v) (h2 : v < 70) :
    analyze_rsi v = (-(3/10), "Moderate strength") := by
  simp only [analyze_rsi]
  rw [if_neg (by intro hc; linarith), if_neg (by intro hc; linarith),
    if_neg (by rintro ⟨a, b⟩; linarith), if_pos h1]

theorem analyze_rsi_mod_weakness {v : ℚ} (h1 : 30 < v) (h2 : v < 40) :
    analyze_rsi v = (3/10, "Moderate weakness") := by
  simp only [analyze_rsi]
  rw [if_neg (by intro hc; linarith), if_neg (by intro hc; linarith),
    if_neg (by rintro ⟨a, b⟩; linarith), if_neg (by intro hc; linarith)]

theorem analyze_sentiment_euphoria {r n : ℚ} (h : 85/100 < r) :
    analyze_sentiment r n = (-(6/10), "Extreme euphoria (contrarian bearish)") := by
  simp only [analyze_sentiment]
  rw [if_pos (Or.inl h)]

theorem analyze_sentiment_fear {r n : ℚ} (h1 : r < 15/100)
    (h2 : n ≤ 85/100) :
    analyze_sentiment r n = (6/10, "Extreme fear (contrarian bullish)") := by
  simp only [analyze_sentiment]
  rw [if_neg (by push_neg; exact ⟨by linarith, by linarith⟩),
    if_pos (Or.inl h1)]

theorem score_to_recommendation_strong_buy {s : ℚ} (h : 7/10 ≤ s) :
    score_to_recommendation s = ("strong_buy", min |s| 1) := by
  simp only [score_to_recommendation]
  rw [if_pos h]

theorem score_to_recommendation_buy {s : ℚ} (h1 : 3/10 ≤ s) (h2 : s < 7/10) :
    score_to_recommendation s = ("buy", |s|) := by
  simp only [score_to_recommendation]
  rw [if_neg (by intro hc; linarith), if_pos h1]

theorem score_to_recommendation_strong_sell {s : ℚ} (h : s ≤ -(7/10)) :
    score_to_recommendation s = ("strong_sell", min |s| 1) := by
  simp only [score_to_recommendation]
  rw [if_neg (by intro hc; linarith), if_neg (by intro hc; linarith), if_pos h]

theorem score_to_recommendation_sell {s : ℚ} (h1 : -(7/10) < s)
    (h2 : s ≤ -(3/10)) :
    score_to_recommendation s = ("sell", |s|) := by
  simp only [score_to_recommendation]
  rw [if_neg (by intro hc; linarith), if_neg (by intro hc; linarith),
    if_neg (by intro hc; linarith), if_pos h2]

theorem score_to_recommendation_hold {s : ℚ} (h1 : -(3/10) < s)
    (h2 : s < 3/10) :
    score_to_recommendation s = ("hold", 1 - |s|) := by
  simp only [score_to_recommendation]
  rw [if_neg (by intro hc; linarith), if_neg (by intro hc; linarith),
    if_neg (by intro hc; linarith), if_neg (by intro hc; linarith)]

theorem score_to_recommendation_cases (s : ℚ) :
    (score_to_recommendation s).1 = "strong_buy" ∨
    (score_to_recommendation s).1 = "buy" ∨
    (score_to_recommendation s).1 = "hold" ∨
    (score_to_recommendation s).1 = "sell" ∨
    (score_to_recommendation s).1 = "strong_sell" := by
  simp only [score_to_recommendation]
  split_ifs <;> simp

/-! ### Inversion of the result wrapper -/

theorem generate_recommendation_ok {e : Engine} {pl : PowerLawAnalysis}
    {ta : TechnicalAnalysis} {news reddit : SentimentAnalysis} {p : ℚ}
    {r : Result}
    (h : generate_recommendation e pl ta news reddit p = Except.ok r) :
    r = generate_recommendation_core e pl ta news reddit p := by
  unfold generate_recommendation at h
  split_ifs at h
  injection h with h2
  exact h2.symm

theorem generate_recommendation_eq_ok {e : Engine} {pl : PowerLawAnalysis}
    {ta : TechnicalAnalysis} {news reddit : SentimentAnalysis} {p : ℚ}
    (h1 : pl.fair_value ≠ 0) (h2 : e.reddit_weight + e.news_weight ≠ 0) :
    generate_recommendation e pl ta news reddit p =
      Except.ok (generate_recommendation_core e pl ta news reddit p) := by
  unfold generate_recommendation
  rw [if_neg h1, if_neg h2]

/-! ### Definitional projections of the core result -/

theorem core_recommendation (e : Engine) (pl : PowerLawAnalysis)
    (ta : TechnicalAnalysis) (news reddit : SentimentAnalysis) (p : ℚ) :
    (generate_recommendation_core e pl ta news reddit p).recommendation =
      (score_to_recommendation (composite_of ta pl news reddit p)).1 := rfl

theorem core_confidence (e : Engine) (pl : PowerLawAnalysis)
    (ta : TechnicalAnalysis) (news reddit : SentimentAnalysis) (p : ℚ) :
    (generate_recommendation_core e pl ta news reddit p).confidence =
      pyRound (score_to_recommendation (composite_of ta pl news reddit p)).2 2 :=
  rfl

theorem core_composite (e : Engine) (pl : PowerLawAnalysis)
    (ta : TechnicalAnalysis) (news reddit : SentimentAnalysis) (p : ℚ) :
    (generate_recommendation_core e pl ta news reddit p).composite_score =
      pyRound (composite_of ta pl news reddit p) 3 := rfl

theorem core_targets (e : Engine) (pl : PowerLawAnalysis)
    (ta : TechnicalAnalysis) (news reddit : SentimentAnalysis) (p : ℚ) :
    (generate_recommendation_core e pl ta news reddit p).targets =
      calculate_targets p
        (score_to_recommendation (composite_of ta pl news reddit p)).1
        (score_to_recommendation (composite_of ta pl news reddit p)).2 := rfl

theorem core_factor_rsi (e : Engine) (pl : PowerLawAnalysis)
    (ta : TechnicalAnalysis) (news reddit : SentimentAnalysis) (p : ℚ) :
    (generate_recommendation_core e pl ta news reddit p).factor_scores.rsi =
      pyRound (analyze_rsi (ta.rsi_value.getD 50)).1 3 := rfl

theorem core_factor_ma (e : Engine) (pl : PowerLawAnalysis)
    (ta : TechnicalAnalysis) (news reddit : SentimentAnalysis) (p : ℚ) :
    (generate_recommendation_core e pl ta news reddit p).factor_scores.moving_averages =
      pyRound (analyze_moving_averages p (ta.ma_trend.getD ("neutral"))
        ta.golden_cross ta.death_cross ta.ema_147).1 3 := rfl

theorem core_factor_pl (e : Engine) (pl : PowerLawAnalysis)
    (ta : TechnicalAnalysis) (news reddit : SentimentAnalysis) (p : ℚ) :
    (generate_recommendation_core e pl ta news reddit p).factor_scores.power_law =
      pyRound (analyze_power_law pl.status p pl.fair_value).1 3 := rfl

theorem core_factor_macd (e : Engine) (pl : PowerLawAnalysis)
    (ta : TechnicalAnalysis) (news reddit : SentimentAnalysis) (p : ℚ) :
    (generate_recommendation_core e pl ta news reddit p).factor_scores.macd =
      pyRound (analyze_macd (ta.macd_signal.getD ("neutral"))
        (ta.macd_histogram.getD 0)).1 3 := rfl

theorem core_factor_sentiment (e : Engine) (pl : PowerLawAnalysis)
    (ta : TechnicalAnalysis) (news reddit : SentimentAnalysis) (p : ℚ) :
    (generate_recommendation_core e pl ta news reddit p).factor_scores.sentiment =
      pyRound (analyze_sentiment reddit.average_compound
        news.average_compound).1 3 := rfl

/-! ### Concrete evaluation lemmas -/

theorem analyze_ma_all_neutral (p : ℚ) :
    analyze_moving_averages p ("neutral") false false none =
      (0, "Neutral MA structure") := by
  have t1 : ¬("neutral" = "strong_bullish") := by decide
  have t2 : ¬("neutral" = "bullish") := by decide
  have t3 : ¬("neutral" = "bearish") := by decide
  have t4 : ¬("neutral" = "strong_bearish") := by decide
  simp only [analyze_moving_averages, if_neg t1, if_neg t2, if_neg t3,
    if_neg t4]
  norm_num [min_def, max_def]

theorem analyze_pl_deep_value (p f : ℚ) :
    analyze_power_law ("Deep Value") p f = (1, "Deep Value") := by
  simp only [analyze_power_law]
  rw [if_pos trivial]

theorem analyze_pl_bubble_risk (p f : ℚ) :
    analyze_power_law ("Bubble Risk") p f = (-1, "Bubble Risk") := by
  simp only [analyze_power_law]
  rw [if_neg (by decide), if_pos trivial]

theorem analyze_macd_neutral_eval (h : ℚ) :
    analyze_macd ("neutral") h = (0, "Neutral momentum") := by
  simp only [analyze_macd]
  rw [if_neg (by decide), if_neg (by decide)]

theorem analyze_sentiment_half : analyze_sentiment (1/2) (1/2) =
    (2/10, "Moderately positive") := by
  simp only [analyze_sentiment]
  rw [if_neg (by push_neg; constructor <;> norm_num),
    if_neg (by push_neg; constructor <;> norm_num),
    if_neg (by norm_num), if_pos (by norm_num)]

theorem composite_of_W : composite_of taW plW newsW redditW 100 = 7/25 := by
  unfold composite_of
  simp only [taW, plW, newsW, redditW, Option.getD_some]
  rw [analyze_rsi_neutral (by norm_num) (by norm_num), analyze_ma_all_neutral,
    analyze_pl_deep_value, analyze_macd_neutral_eval, analyze_sentiment_half]
  norm_num

theorem composite_of_B :
    composite_of taHot plB newsW redditEuphoric 100 = -(157/300) := by
  unfold composite_of
  simp only [taHot, plB, newsW, redditEuphoric, Option.getD_some]
  rw [analyze_rsi_overbought (by norm_num), analyze_ma_all_neutral,
    analyze_pl_bubble_risk, analyze_macd_neutral_eval,
    analyze_sentiment_euphoria (by norm_num)]
  rw [min_eq_left (by norm_num : ((95 : ℚ) - 70) / 30 ≤ 1)]
  norm_num

/-! ### Antitonicity of the RSI scorer -/

theorem analyze_rsi_ub_30 {w : ℚ} (h : 30 < w) : (analyze_rsi w).1 ≤ 3/10 := by
  simp only [analyze_rsi]
  split_ifs with h1 h2 h3 h4 <;> dsimp only
  · have hm0 : 0 ≤ min ((w - 70) / 30) 1 := le_min (by linarith) (by norm_num)
    linarith
  · exfalso; linarith
  · norm_num
  · norm_num
  · norm_num

theorem analyze_rsi_ub_40 {w : ℚ} (h : 40 ≤ w) : (analyze_rsi w).1 ≤ 0 := by
  simp only [analyze_rsi]
  split_ifs with h1 h2 h3 h4 <;> dsimp only
  · have hm0 : 0 ≤ min ((w - 70) / 30) 1 := le_min (by linarith) (by norm_num)
    linarith
  · exfalso; linarith
  · norm_num
  · norm_num
  · exact absurd ⟨h, not_lt.mp h4⟩ h3

theorem analyze_rsi_ub_60 {w : ℚ} (h : 60 < w) :
    (analyze_rsi w).1 ≤ -(3/10) := by
  simp only [analyze_rsi]
  split_ifs with h1 h2 h3 <;> dsimp only
  · have hm0 : 0 ≤ min ((w - 70) / 30) 1 := le_min (by linarith) (by norm_num)
    linarith
  · exfalso; linarith
  · exfalso; have := h3.2; linarith
  · norm_num

theorem analyze_rsi_lb_30 {v : ℚ} (h : v ≤ 30) : 1/2 ≤ (analyze_rsi v).1 := by
  rw [analyze_rsi_oversold h]
  dsimp only
  have hm0 : 0 ≤ min ((30 - v) / 30) 1 := le_min (by linarith) (by norm_num)
  linarith

theorem analyze_rsi_hi_anti {v w : ℚ} (h70 : 70 ≤ v) (hvw : v ≤ w) :
    (analyze_rsi w).1 ≤ (analyze_rsi v).1 := by
  rw [analyze_rsi_overbought h70, analyze_rsi_overbought (le_trans h70 hvw)]
  dsimp only
  have := min_le_min (show (v - 70) / 30 ≤ (w - 70) / 30 by linarith)
    (le_refl (1 : ℚ))
  linarith

theorem analyze_rsi_lo_anti {v w : ℚ} (hvw : v ≤ w) (h30 : w ≤ 30) :
    (analyze_rsi w).1 ≤ (analyze_rsi v).1 := by
  rw [analyze_rsi_oversold (le_trans hvw h30), analyze_rsi_oversold h30]
  dsimp only
  have := min_le_min (show (30 - w) / 30 ≤ (30 - v) / 30 by linarith)
    (le_refl (1 : ℚ))
  linarith

theorem analyze_rsi_antitone {v w : ℚ} (hvw : v ≤ w) :
    (analyze_rsi w).1 ≤ (analyze_rsi v).1 := by
  by_cases h70 : 70 ≤ v
  · exact analyze_rsi_hi_anti h70 hvw
  by_cases hw30 : w ≤ 30
  · exact analyze_rsi_lo_anti hvw hw30
  push_neg at h70 hw30
  by_cases hv30 : v ≤ 30
  · calc (analyze_rsi w).1 ≤ 3/10 := analyze_rsi_ub_30 hw30
      _ ≤ 1/2 := by norm_num
      _ ≤ (analyze_rsi v).1 := analyze_rsi_lb_30 hv30
  push_neg at hv30
  by_cases hv40 : v < 40
  · rw [analyze_rsi_mod_weakness hv30 hv40]
    exact analyze_rsi_ub_30 hw30
  push_neg at hv40
  by_cases hv60 : v ≤ 60
  · rw [analyze_rsi_neutral hv40 hv60]
    exact analyze_rsi_ub_40 (by linarith)
  push_neg at hv60
  rw [analyze_rsi_mod_strength hv60 (by linarith)]
  exact analyze_rsi_ub_60 (by linarith)

/-! ### Claim theorems -/

/-- C1 counterexample: with the raw Reddit compound score at 0.9 (above the
0.85 threshold), a bubble-risk valuation and RSI 95, generate_recommendation
does not emit a contrarian alert: it runs the composite pipeline and returns
the ordinary recommendation "sell". -/
theorem contrarian_gate_counterexample :
    redditEuphoric.average_compound = 9/10 ∧
    (generate_recommendation eW plB taHot newsW redditEuphoric 100).map
      Result.recommendation = Except.ok ("sell") ∧
    ("sell" : String) ≠ "contrarian_alert" ∧
    ("sell" : String) ≠ "CONTRARIAN_ALERT" := by
  refine ⟨rfl, ?_, by decide, by decide⟩
  rw [@generate_recommendation_eq_ok eW plB taHot newsW redditEuphoric 100
    (by simp only [plB]; norm_num) (by simp only [eW]; norm_num)]
  simp only [Except.map]
  rw [core_recommendation, composite_of_B,
    score_to_recommendation_sell (by norm_num) (by norm_num)]

/-- C1 amended: extreme raw social sentiment does not short-circuit
generate_recommendation.  Above 0.85 the sentiment factor is scored -0.6
(contrarian bearish); below 0.15 it is scored +0.6 (contrarian bullish,
provided the news score does not itself exceed 0.85, in which case the
euphoria branch takes precedence); in every successful call the composite
pipeline proceeds and the result is one of the five ordinary
recommendations, never a contrarian alert. -/
theorem extreme_sentiment_is_factor_not_gate (e : Engine)
    (pl : PowerLawAnalysis) (ta : TechnicalAnalysis)
    (news reddit : SentimentAnalysis) (p : ℚ) (r : Result)
    (h : generate_recommendation e pl ta news reddit p = Except.ok r) :
    (85/100 < reddit.average_compound →
      r.factor_scores.sentiment = -(3/5)) ∧
    (reddit.average_compound < 15/100 → news.average_compound ≤ 85/100 →
      r.factor_scores.sentiment = 3/5) ∧
    (r.recommendation = "strong_buy" ∨ r.recommendation = "buy" ∨
      r.recommendation = "hold" ∨ r.recommendation = "sell" ∨
      r.recommendation = "strong_sell") := by
  have hr := generate_recommendation_ok h
  subst hr
  refine ⟨?_, ?_, ?_⟩
  · intro hx
    rw [core_factor_sentiment, analyze_sentiment_euphoria hx]
    norm_num [pyRound, roundHalfEven]
  · intro h1 h2
    rw [core_factor_sentiment, analyze_sentiment_fear h1 h2]
    norm_num [pyRound, roundHalfEven]
  · rw [core_recommendation]
    exact score_to_recommendation_cases _

/-- C1 witness: the amended statement instantiated on both extreme
scenarios: the euphoric one (raw 0.9, factor -0.6) and the fearful one
(raw 0.1, factor +0.6), each yielding an ordinary recommendation. -/
theorem extreme_sentiment_is_factor_not_gate_witness :
    (85/100 : ℚ) < redditEuphoric.average_compound ∧
    rB.factor_scores.sentiment = -(3/5) ∧
    redditFear.average_compound < 15/100 ∧
    newsW.average_compound ≤ 85/100 ∧
    rF.factor_scores.sentiment = 3/5 ∧
    (rB.recommendation = "strong_buy" ∨ rB.recommendation = "buy" ∨
      rB.recommendation = "hold" ∨ rB.recommendation = "sell" ∨
      rB.recommendation = "strong_sell") ∧
    (rF.recommendation = "strong_buy" ∨ rF.recommendation = "buy" ∨
      rF.recommendation = "hold" ∨ rF.recommendation = "sell" ∨
      rF.recommendation = "strong_sell") := by
  have hx : (85/100 : ℚ) < redditEuphoric.average_compound := by
    simp only [redditEuphoric]; norm_num
  have hf : redditFear.average_compound < 15/100 := by
    simp only [redditFear]; norm_num
  have hn : newsW.average_compound ≤ 85/100 := by
    simp only [newsW]; norm_num
  have hB := extreme_sentiment_is_factor_not_gate eW plB taHot newsW
    redditEuphoric 100 rB
    (@generate_recommendation_eq_ok eW plB taHot newsW redditEuphoric 100
      (by simp only [plB]; norm_num) (by simp only [eW]; norm_num))
  have hF := extreme_sentiment_is_factor_not_gate eW plW taW newsW
    redditFear 100 rF
    (@generate_recommendation_eq_ok eW plW taW newsW redditFear 100
      (by simp only [plW]; norm_num) (by simp only [eW]; norm_num))
  exact ⟨hx, hB.1 hx, hf, hn, hF.2.1 hf hn, hB.2.2, hF.2.2⟩

/-- C2: on every successful evaluation, each of the five factor scores lies
in the interval from -1 to 1, and so does the composite score. -/
theorem scores_bounded (e : Engine) (pl : PowerLawAnalysis)
    (ta : TechnicalAnalysis) (news reddit : SentimentAnalysis) (p : ℚ)
    (r : Result)
    (h : generate_recommendation e pl ta news reddit p = Except.ok r) :
    (-1 ≤ r.factor_scores.rsi ∧ r.factor_scores.rsi ≤ 1) ∧
    (-1 ≤ r.factor_scores.moving_averages ∧
      r.factor_scores.moving_averages ≤ 1) ∧
    (-1 ≤ r.factor_scores.power_law ∧ r.factor_scores.power_law ≤ 1) ∧
    (-1 ≤ r.factor_scores.macd ∧ r.factor_scores.macd ≤ 1) ∧
    (-1 ≤ r.factor_scores.sentiment ∧ r.factor_scores.sentiment ≤ 1) ∧
    (-1 ≤ r.composite_score ∧ r.composite_score ≤ 1) := by
  have hr := generate_recommendation_ok h
  subst hr
  obtain ⟨a1, a2⟩ := analyze_rsi_mem (ta.rsi_value.getD 50)
  obtain ⟨b1, b2⟩ := analyze_moving_averages_mem p (ta.ma_trend.getD ("neutral"))
    ta.golden_cross ta.death_cross ta.ema_147
  obtain ⟨c1, c2⟩ := analyze_power_law_mem pl.status p pl.fair_value
  obtain ⟨d1, d2⟩ := analyze_macd_mem (ta.macd_signal.getD ("neutral"))
    (ta.macd_histogram.getD 0)
  obtain ⟨f1, f2⟩ := analyze_sentiment_mem reddit.average_compound
    news.average_compound
  have hc1 : -1 ≤ composite_of ta pl news reddit p := by
    unfold composite_of; linarith
  have hc2 : composite_of ta pl news reddit p ≤ 1 := by
    unfold composite_of; linarith
  refine ⟨⟨?_, ?_⟩, ⟨?_, ?_⟩, ⟨?_, ?_⟩, ⟨?_, ?_⟩, ⟨?_, ?_⟩, ⟨?_, ?_⟩⟩
  · rw [core_factor_rsi]; exact neg_one_le_pyRound 3 a1
  · rw [core_factor_rsi]; exact pyRound_le_one 3 a2
  · rw [core_factor_ma]; exact neg_one_le_pyRound 3 b1
  · rw [core_factor_ma]; exact pyRound_le_one 3 b2
  · rw [core_factor_pl]; exact neg_one_le_pyRound 3 c1
  · rw [core_factor_pl]; exact pyRound_le_one 3 c2
  · rw [core_factor_macd]; exact neg_one_le_pyRound 3 d1
  · rw [core_factor_macd]; exact pyRound_le_one 3 d2
  · rw [core_factor_sentiment]; exact neg_one_le_pyRound 3 f1
  · rw [core_factor_sentiment]; exact pyRound_le_one 3 f2
  · rw [core_composite]; exact neg_one_le_pyRound 3 hc1
  · rw [core_composite]; exact pyRound_le_one 3 hc2

/-- C2 witness: the boundedness statement instantiated on the neutral
scenario. -/
theorem scores_bounded_witness :
    (-1 ≤ rW.factor_scores.rsi ∧ rW.factor_scores.rsi ≤ 1) ∧
    (-1 ≤ rW.factor_scores.moving_averages ∧
      rW.factor_scores.moving_averages ≤ 1) ∧
    (-1 ≤ rW.factor_scores.power_law ∧ rW.factor_scores.power_law ≤ 1) ∧
    (-1 ≤ rW.factor_scores.macd ∧ rW.factor_scores.macd ≤ 1) ∧
    (-1 ≤ rW.factor_scores.sentiment ∧ rW.factor_scores.sentiment ≤ 1) ∧
    (-1 ≤ rW.composite_score ∧ rW.composite_score ≤ 1) :=
  scores_bounded eW plW taW newsW redditW 100 rW
    (@generate_recommendation_eq_ok eW plW taW newsW redditW 100
      (by simp only [plW]; norm_num) (by simp only [eW]; norm_num))

/-- C3: the decision mapper sends a composite score s to strong_buy with
confidence min (abs s) 1 when s is at least 0.7, to buy with confidence
abs s on [0.3, 0.7), to hold with confidence 1 - abs s on (-0.3, 0.3), to
sell on (-0.7, -0.3], and to strong_sell at or below -0.7; boundary values
0.70, 0.6999, -0.30 and -0.2999 land as the spec's table says. -/
theorem decision_mapper_thresholds (s : ℚ) :
    (7/10 ≤ s → score_to_recommendation s = ("strong_buy", min |s| 1)) ∧
    (3/10 ≤ s → s < 7/10 → score_to_recommendation s = ("buy", |s|)) ∧
    (-(3/10) < s → s < 3/10 → score_to_recommendation s = ("hold", 1 - |s|)) ∧
    (-(7/10) < s → s ≤ -(3/10) → score_to_recommendation s = ("sell", |s|)) ∧
    (s ≤ -(7/10) → score_to_recommendation s = ("strong_sell", min |s| 1)) ∧
    (score_to_recommendation (7/10)).1 = "strong_buy" ∧
    (score_to_recommendation (6999/10000)).1 = "buy" ∧
    (score_to_recommendation (-(3/10))).1 = "sell" ∧
    (score_to_recommendation (-(2999/10000))).1 = "hold" := by
  refine ⟨fun h => score_to_recommendation_strong_buy h,
    fun h1 h2 => score_to_recommendation_buy h1 h2,
    fun h1 h2 => score_to_recommendation_hold h1 h2,
    fun h1 h2 => score_to_recommendation_sell h1 h2,
    fun h => score_to_recommendation_strong_sell h, ?_, ?_, ?_, ?_⟩
  · rw [score_to_recommendation_strong_buy (by norm_num)]
  · rw [score_to_recommendation_buy (by norm_num) (by norm_num)]
  · rw [score_to_recommendation_sell (by norm_num) (by norm_num)]
  · rw [score_to_recommendation_hold (by norm_num) (by norm_num)]

/-- C3 witness: the threshold statement applied at the boundary score
0.7. -/
theorem decision_mapper_thresholds_witness :
    (7/10 : ℚ) ≤ 7/10 ∧
    score_to_recommendation (7/10) = ("strong_buy", min |(7/10 : ℚ)| 1) :=
  ⟨le_refl _, (decision_mapper_thresholds (7/10)).1 (le_refl _)⟩

/-- C4 counterexample: on an input whose technical record lacks the RSI
value, generate_recommendation does not raise; it returns an ordinary
result whose rsi factor score is the neutral 0 (the code substitutes the
default RSI of 50). -/
theorem missing_rsi_counterexample :
    taNoRsi.rsi_value = none ∧
    (generate_recommendation eW plW taNoRsi newsW redditW 100).map
      (fun r => r.factor_scores.rsi) = Except.ok 0 := by
  refine ⟨rfl, ?_⟩
  rw [@generate_recommendation_eq_ok eW plW taNoRsi newsW redditW 100
    (by simp only [plW]; norm_num) (by simp only [eW]; norm_num)]
  simp only [Except.map]
  rw [core_factor_rsi]
  simp only [taNoRsi, Option.getD_none]
  rw [analyze_rsi_neutral (by norm_num) (by norm_num)]
  norm_num [pyRound, roundHalfEven]

/-- C4 amended: when the RSI value field is missing, generate_recommendation
silently substitutes the default RSI of 50 and succeeds (given the two
unrelated division guards), producing a neutral rsi factor score of 0
rather than raising. -/
theorem missing_rsi_silently_neutral (e : Engine) (pl : PowerLawAnalysis)
    (ta : TechnicalAnalysis) (news reddit : SentimentAnalysis) (p : ℚ)
    (hmiss : ta.rsi_value = none) (hfv : pl.fair_value ≠ 0)
    (hw : e.reddit_weight + e.news_weight ≠ 0) :
    ∃ r, generate_recommendation e pl ta news reddit p = Except.ok r ∧
      r.factor_scores.rsi = 0 := by
  refine ⟨generate_recommendation_core e pl ta news reddit p,
    generate_recommendation_eq_ok hfv hw, ?_⟩
  rw [core_factor_rsi, hmiss]
  simp only [Option.getD_none]
  rw [analyze_rsi_neutral (by norm_num) (by norm_num)]
  norm_num [pyRound, roundHalfEven]

/-- C4 witness: the amended statement instantiated on the concrete record
without an RSI value. -/
theorem missing_rsi_silently_neutral_witness :
    taNoRsi.rsi_value = none ∧
    ∃ r, generate_recommendation eW plW taNoRsi newsW redditW 100 =
        Except.ok r ∧ r.factor_scores.rsi = 0 :=
  ⟨rfl, missing_rsi_silently_neutral eW plW taNoRsi newsW redditW 100 rfl
    (by simp only [plW]; norm_num) (by simp only [eW]; norm_num)⟩

/-- C5: the RSI factor scorer realizes the five-zone piecewise formula of
the spec on [0, 100], and is non-increasing in the RSI value. -/
theorem rsi_scorer_piecewise_antitone (v w : ℚ) (hv0 : 0 ≤ v)
    (hv1 : v ≤ 100) :
    (70 ≤ v → (analyze_rsi v).1 = -(1/2) - (1/2) * min ((v - 70) / 30) 1) ∧
    (v ≤ 30 → (analyze_rsi v).1 = 1/2 + (1/2) * min ((30 - v) / 30) 1) ∧
    (40 ≤ v → v ≤ 60 → (analyze_rsi v).1 = 0) ∧
    (60 < v → v < 70 → (analyze_rsi v).1 = -(3/10)) ∧
    (30 < v → v < 40 → (analyze_rsi v).1 = 3/10) ∧
    (v ≤ w → w ≤ 100 → (analyze_rsi w).1 ≤ (analyze_rsi v).1) := by
  refine ⟨?_, ?_, ?_, ?_, ?_, ?_⟩
  · intro h; rw [analyze_rsi_overbought h]; dsimp only; ring
  · intro h; rw [analyze_rsi_oversold h]; dsimp only; ring
  · intro h1 h2; rw [analyze_rsi_neutral h1 h2]
  · intro h1 h2; rw [analyze_rsi_mod_strength h1 h2]
  · intro h1 h2; rw [analyze_rsi_mod_weakness h1 h2]
  · intro h1 h2; exact analyze_rsi_antitone h1

/-- C5 witness: raising RSI from 50 to 80 does not increase the factor
score. -/
theorem rsi_scorer_piecewise_antitone_witness :
    (0 : ℚ) ≤ 50 ∧ (50 : ℚ) ≤ 100 ∧ (50 : ℚ) ≤ 80 ∧ (80 : ℚ) ≤ 100 ∧
    (analyze_rsi 80).1 ≤ (analyze_rsi 50).1 :=
  ⟨by norm_num, by norm_num, by norm_num, by norm_num,
    (rsi_scorer_piecewise_antitone 50 80 (by norm_num) (by norm_num)).2.2.2.2.2
      (by norm_num) (by norm_num)⟩

/-- C6 counterexample: at histogram 0 with a bullish signal the MACD score
is 0.5 (the Python code treats a zero histogram as falsy and defaults the
strength to 0.5), not the 0.3 the claimed formula gives at 0. -/
theorem macd_zero_histogram_counterexample :
    (analyze_macd ("bullish") 0).1 = 1/2 ∧
    (1/2 : ℚ) ≠ 3/10 + (4/10) * min (|(0 : ℚ)| / 1000) 1 := by
  constructor
  · norm_num [analyze_macd]
  · rw [abs_zero]
    rw [min_eq_left (by norm_num : (0 : ℚ) / 1000 ≤ 1)]
    norm_num

/-- C6 amended: the MACD scorer follows the histogram formula only for a
nonzero histogram; at histogram 0 a bullish or bearish signal scores plus
or minus 0.5, and any other signal scores 0. -/
theorem macd_scorer_values (s : String) (h : ℚ) :
    (s = "bullish" → h ≠ 0 →
      (analyze_macd s h).1 = 3/10 + (4/10) * min (|h| / 1000) 1) ∧
    (s = "bullish" → h = 0 → (analyze_macd s h).1 = 1/2) ∧
    (s = "bearish" → h ≠ 0 →
      (analyze_macd s h).1 = -(3/10) - (4/10) * min (|h| / 1000) 1) ∧
    (s = "bearish" → h = 0 → (analyze_macd s h).1 = -(1/2)) ∧
    (s ≠ "bullish" → s ≠ "bearish" → (analyze_macd s h).1 = 0) := by
  refine ⟨?_, ?_, ?_, ?_, ?_⟩
  · rintro rfl hh
    unfold analyze_macd
    rw [if_pos rfl, if_pos hh]
    dsimp only; ring
  · rintro rfl rfl
    unfold analyze_macd
    rw [if_pos rfl, if_neg (not_not_intro rfl)]
    dsimp only; norm_num
  · rintro rfl hh
    unfold analyze_macd
    rw [if_neg (by decide), if_pos rfl, if_pos hh]
    dsimp only; ring
  · rintro rfl rfl
    unfold analyze_macd
    rw [if_neg (by decide), if_pos rfl, if_neg (not_not_intro rfl)]
    dsimp only; norm_num
  · intro h1 h2
    unfold analyze_macd
    rw [if_neg h1, if_neg h2]

/-- C6 witness: the amended statement at a bullish signal with histogram
500. -/
theorem macd_scorer_values_witness :
    ("bullish" : String) = "bullish" ∧ (500 : ℚ) ≠ 0 ∧
    (analyze_macd ("bullish") 500).1 = 3/10 + (4/10) * min (|(500 : ℚ)| / 1000) 1 :=
  ⟨rfl, by norm_num, (macd_scorer_values ("bullish") 500).1 rfl (by norm_num)⟩

/-- C7: the constructor validates the three legacy weights: it succeeds with
the weights stored unchanged exactly on triples inside [0, 1] whose sum is
1 within 0.01, raises a validation error otherwise, and in particular
rejects the triple of three halves. -/
theorem weight_validation_fail_fast (r n t : ℚ) :
    ((0 ≤ r ∧ r ≤ 1 ∧ 0 ≤ n ∧ n ≤ 1 ∧ 0 ≤ t ∧ t ≤ 1) →
      |r + n + t - 1| ≤ 1/100 → mkEngine r n t = Except.ok ⟨r, n, t⟩) ∧
    (¬ (0 ≤ r ∧ r ≤ 1 ∧ 0 ≤ n ∧ n ≤ 1 ∧ 0 ≤ t ∧ t ≤ 1) →
      ∃ msg, mkEngine r n t = Except.error msg) ∧
    (1/100 < |r + n + t - 1| → ∃ msg, mkEngine r n t = Except.error msg) ∧
    mkEngine (1/2) (1/2) (1/2) =
      Except.error ("Weights must sum to 1.0") := by
  refine ⟨?_, ?_, ?_, ?_⟩
  · intro hC hS
    unfold mkEngine
    rw [if_neg (not_not_intro hC), if_neg (not_lt.mpr hS)]
  · intro hC
    unfold mkEngine
    rw [if_pos hC]
    exact ⟨_, rfl⟩
  · intro hS
    unfold mkEngine
    by_cases hC : (0 ≤ r ∧ r ≤ 1 ∧ 0 ≤ n ∧ n ≤ 1 ∧ 0 ≤ t ∧ t ≤ 1)
    · rw [if_neg (not_not_intro hC), if_pos hS]
      exact ⟨_, rfl⟩
    · rw [if_pos hC]
      exact ⟨_, rfl⟩
  · unfold mkEngine
    rw [if_neg (not_not_intro (by norm_num)), if_pos (by
      have hx : (1/2 + 1/2 + 1/2 - 1 : ℚ) = 1/2 := by norm_num
      rw [hx, abs_of_pos (by norm_num)]
      norm_num)]

/-- C7 witness: the validation statement applied to the default weights
0.4 / 0.3 / 0.3, which construct successfully and are stored unchanged. -/
theorem weight_validation_fail_fast_witness :
    ((0 : ℚ) ≤ 4/10 ∧ (4/10 : ℚ) ≤ 1 ∧ (0 : ℚ) ≤ 3/10 ∧ (3/10 : ℚ) ≤ 1 ∧
      (0 : ℚ) ≤ 3/10 ∧ (3/10 : ℚ) ≤ 1) ∧
    |(4/10 : ℚ) + 3/10 + 3/10 - 1| ≤ 1/100 ∧
    mkEngine (4/10) (3/10) (3/10) = Except.ok ⟨4/10, 3/10, 3/10⟩ := by
  have hC : (0 : ℚ) ≤ 4/10 ∧ (4/10 : ℚ) ≤ 1 ∧ (0 : ℚ) ≤ 3/10 ∧
      (3/10 : ℚ) ≤ 1 ∧ (0 : ℚ) ≤ 3/10 ∧ (3/10 : ℚ) ≤ 1 := by norm_num
  have hS : |(4/10 : ℚ) + 3/10 + 3/10 - 1| ≤ 1/100 := by
    have hx : (4/10 + 3/10 + 3/10 - 1 : ℚ) = 0 := by norm_num
    rw [hx, abs_zero]
    norm_num
  exact ⟨hC, hS, (weight_validation_fail_fast (4/10) (3/10) (3/10)).1 hC hS⟩

/-- C8 counterexample: at price 10, recommendation buy and confidence 0.33
the first target is the rounded 10.16, not the exact product 10.165 the
claim states. -/
theorem target_rounding_counterexample :
    calculate_targets 10 ("buy") (33/100) =
      Targets.directional 10 (254/25) (1033/100) (99/10) ∧
    (254/25 : ℚ) ≠ 10 * (1 + 5/100 * (33/100)) := by
  constructor
  · unfold calculate_targets
    rw [if_pos (show strContains ("buy") ("buy") = true from rfl)]
    norm_num [pyRound, roundHalfEven]
  · norm_num

/-- C8 amended: the target calculator produces exactly the spec's formulas
rounded to 2 decimal places (Python round), for the buy family, the sell
family, and hold. -/
theorem target_calculator_rounded_values (p c : ℚ) (hp : 0 < p) :
    (calculate_targets p ("buy") c = Targets.directional (pyRound p 2)
      (pyRound (p * (1 + 5/100 * c)) 2) (pyRound (p * (1 + 10/100 * c)) 2)
      (pyRound (p * (1 - 3/100 * c)) 2)) ∧
    (calculate_targets p ("strong_buy") c = Targets.directional (pyRound p 2)
      (pyRound (p * (1 + 5/100 * c)) 2) (pyRound (p * (1 + 10/100 * c)) 2)
      (pyRound (p * (1 - 3/100 * c)) 2)) ∧
    (calculate_targets p ("sell") c = Targets.directional (pyRound p 2)
      (pyRound (p * (1 - 5/100 * c)) 2) (pyRound (p * (1 - 10/100 * c)) 2)
      (pyRound (p * (1 + 3/100 * c)) 2)) ∧
    (calculate_targets p ("strong_sell") c = Targets.directional (pyRound p 2)
      (pyRound (p * (1 - 5/100 * c)) 2) (pyRound (p * (1 - 10/100 * c)) 2)
      (pyRound (p * (1 + 3/100 * c)) 2)) ∧
    (calculate_targets p ("hold") c = Targets.neutral (pyRound p 2)
      (pyRound (p * (95/100)) 2) (pyRound (p * (105/100)) 2)) := by
  refine ⟨?_, ?_, ?_, ?_, ?_⟩ <;> unfold calculate_targets
  · rw [if_pos (show strContains ("buy") ("buy") = true from rfl)]
  · rw [if_pos (show strContains ("strong_buy") ("buy") = true from rfl)]
  · rw [if_neg (show ¬ (strContains ("sell") ("buy") = true) from by decide),
      if_pos (show strContains ("sell") ("sell") = true from rfl)]
  · rw [if_neg
      (show ¬ (strContains ("strong_sell") ("buy") = true) from by decide),
      if_pos (show strContains ("strong_sell") ("sell") = true from rfl)]
  · rw [if_neg (show ¬ (strContains ("hold") ("buy") = true) from by decide),
      if_neg (show ¬ (strContains ("hold") ("sell") = true) from by decide)]

/-- C8 witness: the rounded-target statement at price 10, buy, confidence
0.33. -/
theorem target_calculator_rounded_values_witness :
    (0 : ℚ) < 10 ∧
    calculate_targets 10 ("buy") (33/100) = Targets.directional (pyRound 10 2)
      (pyRound (10 * (1 + 5/100 * (33/100))) 2)
      (pyRound (10 * (1 + 10/100 * (33/100))) 2)
      (pyRound (10 * (1 - 3/100 * (33/100))) 2) :=
  ⟨by norm_num, (target_calculator_rounded_values 10 (33/100) (by norm_num)).1⟩

/-- C9: generate_recommendation is deterministic: two successful calls on
the same engine and inputs agree on composite score, recommendation,
confidence, factor scores and targets. -/
theorem engine_deterministic (e : Engine) (pl : PowerLawAnalysis)
    (ta : TechnicalAnalysis) (news reddit : SentimentAnalysis) (p : ℚ)
    (r1 r2 : Result)
    (h1 : generate_recommendation e pl ta news reddit p = Except.ok r1)
    (h2 : generate_recommendation e pl ta news reddit p = Except.ok r2) :
    r1.composite_score = r2.composite_score ∧
    r1.recommendation = r2.recommendation ∧
    r1.confidence = r2.confidence ∧
    r1.factor_scores = r2.factor_scores ∧
    r1.targets = r2.targets := by
  have e1 := generate_recommendation_ok h1
  have e2 := generate_recommendation_ok h2
  subst e1
  subst e2
  exact ⟨rfl, rfl, rfl, rfl, rfl⟩

/-- C9 witness: determinism instantiated on the neutral scenario. -/
theorem engine_deterministic_witness :
    rW.composite_score = rW.composite_score ∧
    rW.recommendation = rW.recommendation ∧
    rW.confidence = rW.confidence ∧
    rW.factor_scores = rW.factor_scores ∧
    rW.targets = rW.targets :=
  engine_deterministic eW plW taW newsW redditW 100 rW rW
    (@generate_recommendation_eq_ok eW plW taW newsW redditW 100
      (by simp only [plW]; norm_num) (by simp only [eW]; norm_num))
    (@generate_recommendation_eq_ok eW plW taW newsW redditW 100
      (by simp only [plW]; norm_num) (by simp only [eW]; norm_num))

/-- C10: the legacy constructor weights do not interfere with the decision:
two engines built from any two valid weight triples produce, on the same
input, the same composite score, recommendation, confidence, factor scores,
factor weights and targets (only the legacy signals block can differ). -/
theorem legacy_weights_noninterference (e1 e2 : Engine)
    (pl : PowerLawAnalysis) (ta : TechnicalAnalysis)
    (news reddit : SentimentAnalysis) (p : ℚ) (r1 r2 : Result)
    (hv1 : validWeights e1) (hv2 : validWeights e2)
    (h1 : generate_recommendation e1 pl ta news reddit p = Except.ok r1)
    (h2 : generate_recommendation e2 pl ta news reddit p = Except.ok r2) :
    r1.composite_score = r2.composite_score ∧
    r1.recommendation = r2.recommendation ∧
    r1.confidence = r2.confidence ∧
    r1.factor_scores = r2.factor_scores ∧
    r1.factor_weights = r2.factor_weights ∧
    r1.targets = r2.targets := by
  have e1h := generate_recommendation_ok h1
  have e2h := generate_recommendation_ok h2
  subst e1h
  subst e2h
  exact ⟨rfl, rfl, rfl, rfl, rfl, rfl⟩

/-- C10 witness: noninterference instantiated on the neutral scenario with
the weight triples 0.4 / 0.3 / 0.3 and 0.2 / 0.2 / 0.6. -/
theorem legacy_weights_noninterference_witness :
    validWeights eW ∧ validWeights eW2 ∧
    (rW.composite_score = rW2.composite_score ∧
      rW.recommendation = rW2.recommendation ∧
      rW.confidence = rW2.confidence ∧
      rW.factor_scores = rW2.factor_scores ∧
      rW.factor_weights = rW2.factor_weights ∧
      rW.targets = rW2.targets) := by
  have hv1 : validWeights eW := by
    unfold validWeights
    simp only [eW]
    refine ⟨by norm_num, by norm_num, by norm_num, by norm_num, by norm_num,
      by norm_num, ?_⟩
    have hx : (4/10 + 3/10 + 3/10 - 1 : ℚ) = 0 := by norm_num
    rw [hx, abs_zero]
    norm_num
  have hv2 : validWeights eW2 := by
    unfold validWeights
    simp only [eW2]
    refine ⟨by norm_num, by norm_num, by norm_num, by norm_num, by norm_num,
      by norm_num, ?_⟩
    have hx : (1/5 + 1/5 + 3/5 - 1 : ℚ) = 0 := by norm_num
    rw [hx, abs_zero]
    norm_num
  exact ⟨hv1, hv2,
    legacy_weights_noninterference eW eW2 plW taW newsW redditW 100 rW rW2
      hv1 hv2
      (@generate_recommendation_eq_ok eW plW taW newsW redditW 100
        (by simp only [plW]; norm_num) (by simp only [eW]; norm_num))
      (@generate_recommendation_eq_ok eW2 plW taW newsW redditW 100
        (by simp only [plW]; norm_num) (by simp only [eW2]; norm_num))⟩

end RecEngine
